import Mathlib

/-!
Shallow embedding of `albumfixer.py` (the album-fixer repository).

Conventions used throughout:
* Python strings are Lean `String`s; only ASCII inputs are considered, so
  `str.lower` / `str.strip` / `str.isalnum` agree with the character-level
  models below (`pyLower`, `pyStrip`, `Char.isAlphanum`).
* Filesystem state is explicit: a directory listing is a `List String` of
  file names, a directory tree is an `FSTree`, path concatenation uses
  `"/"` for `os.sep` / `os.path.join`, and the set of existing paths is a
  `List String`.
* Network calls (`requests.get` wrappers) are oracles: an art provider is
  a function `String → String → Option String` that returns the saved
  image path on success and `none` on any failure, matching the script's
  `None`-on-failure convention; the interactive helper's overall outcome
  is likewise an `Option String` oracle.
* Python truthiness of an optional string is `pyTruthy`.
-/

/-- Python `str.lower` restricted to ASCII input. -/
def pyLower (s : String) : String := String.mk (s.toList.map Char.toLower)

/-- Python `str.endswith sfx` for a single pattern string. -/
def pyEndsWith (s sfx : String) : Bool := sfx.toList.isSuffixOf s.toList

/-- Python `str.startswith pre` for a single pattern string. -/
def pyStartsWith (s pre : String) : Bool := pre.toList.isPrefixOf s.toList

/-- Python `str.strip()` with no argument (trim ASCII whitespace at both ends). -/
def pyStrip (s : String) : String :=
  String.mk (((s.toList.dropWhile Char.isWhitespace).reverse.dropWhile Char.isWhitespace).reverse)

/-- Python truthiness of an optional string (`None` and `""` are falsy). -/
def pyTruthy : Option String → Bool
  | none => false
  | some s => if s = "" then false else true

/-- Helper for `pySplitOnce`: find the first occurrence of `sep` (nonempty) and
return the characters before it and after it. -/
def splitOnceAux (sep : List Char) : List Char → Option (List Char × List Char)
  | [] => none
  | c :: rest =>
    if sep.isPrefixOf (c :: rest) then some ([], (c :: rest).drop sep.length)
    else
      match splitOnceAux sep rest with
      | some (pre, post) => some (c :: pre, post)
      | none => none

/-- Python `s.split(sep, 1)` for a nonempty separator: one or two pieces. -/
def pySplitOnce (sep s : String) : List String :=
  match splitOnceAux sep.toList s.toList with
  | none => [s]
  | some (pre, post) => [String.mk pre, String.mk post]

/-- Helper for `parse_base_album_name`: Python `str.find` (index of the first
occurrence of the nonempty pattern `sub`, or `none`). -/
def pyFindAux (sub : List Char) : List Char → Nat → Option Nat
  | [], _ => none
  | c :: rest, i =>
    if sub.isPrefixOf (c :: rest) then some i else pyFindAux sub rest (i + 1)

/-- `parse_base_album_name` (albumfixer.py lines 214-228): truncate the album
name at the leftmost occurrence of any of `" ("`, `" ["`, `" - "` and strip;
unchanged when no delimiter occurs. -/
def parse_base_album_name (albumName : String) : String :=
  let cs := albumName.toList
  let found := ([" (", " [", " - "].filterMap (fun d => pyFindAux d.toList cs 0))
  match found.min? with
  | some i => pyStrip (String.mk (cs.take i))
  | none => albumName

/-- Python `s.replace("..", "")`: remove non-overlapping `".."` occurrences,
scanning left to right. -/
def removeDotDot : List Char → List Char
  | '.' :: '.' :: rest => removeDotDot rest
  | c :: rest => c :: removeDotDot rest
  | [] => []

/-- `sanitize_filename` (albumfixer.py lines 208-212): keep alphanumerics and
`" -_()"`, strip, remove `".."`, strip again, strip trailing dots. -/
def sanitize_filename (name : String) : String :=
  let kept := name.toList.filter
    (fun c => c.isAlphanum || c = ' ' || c = '-' || c = '_' || c = '(' || c = ')')
  let s1 := pyStrip (String.mk kept)
  let s2 := pyStrip (String.mk (removeDotDot s1.toList))
  String.mk ((s2.toList.reverse.dropWhile (fun c => c = '.')).reverse)

/-- The inline title sanitizer of `download_lyrics` (albumfixer.py line 197):
keep alphanumerics and `" -_"` (note: no parentheses, no `".."` removal, no
trailing-dot strip), then strip. -/
def lyric_safe_title (title : String) : String :=
  pyStrip (String.mk (title.toList.filter
    (fun c => c.isAlphanum || c = ' ' || c = '-' || c = '_')))

/-- Python `os.path.basename` for `"/"`-separated paths. -/
def pyBasename (p : String) : String :=
  String.mk ((p.toList.reverse.takeWhile (fun c => c ≠ '/')).reverse)

/-- Python `s.split('/')[0]`: the part before the first `'/'`. -/
def splitSlashHead (s : String) : String :=
  String.mk (s.toList.takeWhile (fun c => c ≠ '/'))

/-- Python `str.zfill`: left-pad with `'0'` to the given width, keeping a
leading sign in front of the padding. -/
def pyZfill (w : Nat) (s : String) : String :=
  if w ≤ s.length then s
  else
    let pad := String.mk (List.replicate (w - s.length) '0')
    if pyStartsWith s "+" || pyStartsWith s "-" then
      String.mk (s.toList.take 1) ++ pad ++ String.mk (s.toList.drop 1)
    else pad ++ s

/-- The extension component of Python `os.path.splitext` for a bare file name:
the part from the last dot on, provided some non-dot character occurs before
that dot; otherwise `""`. -/
def pySplitextExt (f : String) : String :=
  let cs := f.toList
  if cs.contains '.' then
    let tl := (cs.reverse.takeWhile (fun c => c ≠ '.')).reverse
    let before := cs.take (cs.length - tl.length - 1)
    if before.any (fun c => c ≠ '.') then String.mk ('.' :: tl) else ""
  else ""

/-- A directory tree: name, directly contained file names, subdirectories. -/
inductive FSTree where
  | mk (name : String) (files : List String) (subdirs : List FSTree)
  deriving Repr

/-- The name of the root directory of a tree. -/
def FSTree.name : FSTree → String
  | .mk n _ _ => n

mutual
/-- `os.walk(root, topdown=False)` over an `FSTree`: every subdirectory's
triples are generated before the directory's own `(path, dirnames, filenames)`
triple.  Because of this bottom-up order, mutating the yielded `dirnames`
list (as `process_music_library` does with `dirs.remove(".rockbox")`) has no
effect on which directories are visited, per the `os.walk` contract, so the
embedding has no pruning step. -/
def walk_bottom_up (path : String) : FSTree → List (String × List String × List String)
  | FSTree.mk _ files subdirs =>
      walk_list path subdirs ++ [(path, subdirs.map FSTree.name, files)]

/-- Walk a list of sibling subtrees in order (helper of `walk_bottom_up`). -/
def walk_list (parent : String) : List FSTree → List (String × List String × List String)
  | [] => []
  | t :: ts => walk_bottom_up (parent ++ "/" ++ t.name) t ++ walk_list parent ts
end

/-- The walker's audio test (albumfixer.py line 452):
`f.lower().endswith((".mp3", "flac"))` — note the second alternative is the
bare suffix `"flac"`, with no dot. -/
def walker_is_audio (f : String) : Bool :=
  pyEndsWith (pyLower f) ".mp3" || pyEndsWith (pyLower f) "flac"

/-- One iteration of the collection loop of `process_music_library`
(albumfixer.py lines 452-459): a directory whose files contain an audio file
is appended unless its path extends an already collected path by `os.sep`. -/
def collect_step (acc : List String) (entry : String × List String × List String) :
    List String :=
  if entry.2.2.any walker_is_audio then
    if acc.any (fun parent => pyStartsWith entry.1 (parent ++ "/")) then acc
    else acc ++ [entry.1]
  else acc

/-- `process_music_library`'s candidate collection (albumfixer.py lines
446-459): fold `collect_step` over the bottom-up walk. -/
def collect_album_folders (rootPath : String) (t : FSTree) : List String :=
  (walk_bottom_up rootPath t).foldl collect_step []

/-- The processor's audio test (albumfixer.py line 289):
`f.lower().endswith((".flac", ".mp3"))` — both alternatives carry a dot. -/
def processor_is_audio (f : String) : Bool :=
  pyEndsWith (pyLower f) ".flac" || pyEndsWith (pyLower f) ".mp3"

/-- The `audio_files` list computed by `process_album_folder`
(albumfixer.py lines 288-290). -/
def audio_files_of (files : List String) : List String :=
  files.filter processor_is_audio

/-- The guard at the top of `process_album_folder` (albumfixer.py lines
288-292): the very first action filters the folder listing; on an empty
result the function returns `False` at once, before any search, download,
rename or move.  `none` models that early failure return (no effects). -/
def process_album_guard (files : List String) : Option (List String) :=
  if audio_files_of files = [] then none else some (audio_files_of files)

/-- The identity (and backfilled tag artist) produced by the resolution block
of `process_album_folder` (albumfixer.py lines 296-314): `artist` and `album`
are the search identity, `tagArtist` is the `tag_artist` variable after the
block (possibly backfilled from the folder-derived artist). -/
structure Resolved where
  artist : String
  album : String
  tagArtist : Option String
  deriving Repr, DecidableEq

/-- Identity resolution (albumfixer.py lines 296-314): a folder name
containing `" - "` is split once and is authoritative; otherwise truthy tag
artist and album are used; otherwise the album is skipped (`none`). -/
def resolve_album_identity (folderName : String) (tagArtist tagAlbum : Option String) :
    Option Resolved :=
  match pySplitOnce " - " folderName with
  | [p0, p1] =>
      let artist := pyStrip p0
      let album := pyStrip p1
      some (Resolved.mk artist album
        (if pyTruthy tagArtist then tagArtist else some artist))
  | _ =>
      if pyTruthy tagArtist && pyTruthy tagAlbum then
        some (Resolved.mk (tagArtist.getD "") (tagAlbum.getD "") tagArtist)
      else none

/-- The artist string passed to `download_lyrics` (albumfixer.py lines
363-366): `tag_artist` when truthy, else the search artist. -/
def lyrics_artist (r : Resolved) : String :=
  match r.tagArtist with
  | some s => if s = "" then r.artist else s
  | none => r.artist

/-- One attempted step of the cover-art fallback machinery: a MusicBrainz
query (`provA`, `download_album_art`), an iTunes query (`provB`,
`_download_art_from_itunes`), or the hand-off to `interactive_art_fix`. -/
inductive ArtStep where
  | provA (artist album : String)
  | provB (artist album : String)
  | interactive (artist album : String)
  deriving DecidableEq, Repr

/-- Whether a step is a Provider B (iTunes) call. -/
def ArtStep.isProvB : ArtStep → Bool
  | .provB _ _ => true
  | _ => false

/-- The automated cover-search chain of `process_album_folder` for a folder
with no pre-existing cover (albumfixer.py lines 325-343): Provider A with the
base name; if that fails and the base differs from the full name, Provider A
with the full name; if still no art, hand off to `interactive_art_fix` (whose
overall outcome is the oracle `ir`).  Returns the ordered trace of steps and
the resulting art path. -/
def search_new_cover (provA : String → String → Option String)
    (ir : Option String) (artist album : String) :
    List ArtStep × Option String :=
  let base := parse_base_album_name album
  let c1 := provA artist base
  let t1 : List ArtStep := [ArtStep.provA artist base]
  let s2 :=
    if c1 = none ∧ base ≠ album then
      (t1 ++ [ArtStep.provA artist album], provA artist album)
    else (t1, c1)
  if s2.2 = none then (s2.1 ++ [ArtStep.interactive artist album], ir)
  else s2

/-- One search pass of `interactive_art_fix` after the operator supplies a
corrected pair (albumfixer.py lines 257-271): Provider A with the corrected
base; then Provider A with the corrected full name when they differ; then
Provider B with the corrected base; then Provider B with the corrected full
name when they differ.  Each success short-circuits the rest. -/
def manual_search_round (provA provB : String → String → Option String)
    (newArtist newAlbum : String) : List ArtStep × Option String :=
  let base := parse_base_album_name newAlbum
  let c1 := provA newArtist base
  let t1 : List ArtStep := [ArtStep.provA newArtist base]
  let s2 :=
    if c1 = none ∧ base ≠ newAlbum then
      (t1 ++ [ArtStep.provA newArtist newAlbum], provA newArtist newAlbum)
    else (t1, c1)
  let s3 :=
    if s2.2 = none then (s2.1 ++ [ArtStep.provB newArtist base], provB newArtist base)
    else s2
  if s3.2 = none ∧ base ≠ newAlbum then
    (s3.1 ++ [ArtStep.provB newArtist newAlbum], provB newArtist newAlbum)
  else s3

/-- The two filesystem mutations of a successful `fix_cover_for_rockbox` run
(albumfixer.py lines 52-77): removing the non-canonical source file and
saving the normalized canonical `folder.jpg`. -/
inductive FixEvent where
  | removeSource
  | saveCanonical
  deriving DecidableEq, Repr

/-- The ordered mutation events of a successful `fix_cover_for_rockbox` run
on a source file named `s` in a directory listing `files` (albumfixer.py
lines 59-75): the source is removed (when its lowercased name is not the
canonical name and it exists) and then — only then — `img.save` produces the
canonical file.  Decode failure performs no events; the best-effort `except`
around `os.remove` is modelled as a successful removal. -/
def fix_cover_events (s : String) (files : List String) : List FixEvent :=
  if pyLower s ≠ "folder.jpg" ∧ s ∈ files then
    [FixEvent.removeSource, FixEvent.saveCanonical]
  else [FixEvent.saveCanonical]

/-- Effect of one `FixEvent` on the directory listing. -/
def apply_fix_event (s : String) (files : List String) : FixEvent → List String
  | FixEvent.removeSource => files.erase s
  | FixEvent.saveCanonical =>
      if "folder.jpg" ∈ files then files else files ++ ["folder.jpg"]

/-- All intermediate directory listings of a run, initial state included. -/
def run_fix_states (s : String) : List String → List FixEvent → List (List String)
  | files, [] => [files]
  | files, e :: es => files :: run_fix_states s (apply_fix_event s files e) es

/-- A tag value as `mutagen`'s easy dictionary returns it: either a scalar
string or a list of strings. -/
inductive TagVal where
  | str (s : String)
  | list (l : List String)
  deriving DecidableEq, Repr

/-- The title extraction shared by the lyric and rename loops (albumfixer.py
lines 351-357 and 376-384): a list takes its first element, a scalar is used
as-is, and a falsy result — or the `IndexError` of indexing an empty list,
caught by the surrounding `except` — leads to the track being skipped
(`none`). -/
def title_of_tag : Option TagVal → Option String
  | none => none
  | some (TagVal.str s) => if s = "" then none else some s
  | some (TagVal.list []) => none
  | some (TagVal.list (x :: _)) => if x = "" then none else some x

/-- The track-number prefix of the rename loop (albumfixer.py lines 387-389):
`"00"` when the raw tag is falsy, else `str(raw[0]).split('/')[0].zfill(2)`
(`raw[0]` is the first list element, or the first character of a scalar
string). -/
def track_num_str : Option TagVal → String
  | some (TagVal.list (x :: _)) => pyZfill 2 (splitSlashHead x)
  | some (TagVal.str s) =>
      if s = "" then "00" else pyZfill 2 (splitSlashHead (String.mk (s.toList.take 1)))
  | _ => "00"

/-- The new file name computed by the rename loop for one track
(albumfixer.py lines 370-399): `none` when the track is skipped for lack of
a title (its current file name is kept), else
`trackNumber - sanitizedTitle.ext`. -/
def rename_track (filename : String) (title trackRaw : Option TagVal) : Option String :=
  match title_of_tag title with
  | none => none
  | some t =>
      some (track_num_str trackRaw ++ " - " ++ sanitize_filename t ++ pySplitextExt filename)

/-- Which sidecar extension `download_lyrics` would persist (albumfixer.py
lines 183-195): `"lrc"` when the response carries truthy `syncedLyrics`,
else `"txt"` when it carries truthy `plainLyrics`, else nothing. -/
def lyrics_fetch_ext (synced plain : Option String) : Option String :=
  if pyTruthy synced then some "lrc"
  else if pyTruthy plain then some "txt"
  else none

/-- The per-track lyric step of `process_album_folder` (albumfixer.py lines
359-366) together with the file written by `download_lyrics` (lines
197-200), acting on the folder's listing.  The skip check uses
`sanitize_filename title` for both candidate names; the fetch, when it runs,
writes `lyric_safe_title title` plus the chosen extension.  The returned
`Bool` records whether a fetch was performed. -/
def lyric_step (synced plain : Option String) (title : String) (files : List String) :
    Bool × List String :=
  let base := sanitize_filename title
  if (base ++ ".lrc") ∈ files ∨ (base ++ ".txt") ∈ files then (false, files)
  else
    match lyrics_fetch_ext synced plain with
    | some ext => (true, files ++ [lyric_safe_title title ++ "." ++ ext])
    | none => (true, files)

/-- The organization step of `process_album_folder` (albumfixer.py lines
404-440) over an explicit set `existing` of filesystem paths: split the
folder's basename once on `" - "`; soft-succeed without moving when the
pattern or the sanitized names fail; otherwise `os.makedirs` the artist
directory, no-op when source and destination coincide (`os.path.abspath`
is modelled as the identity on these already-absolute path strings), refuse
with `False` when the destination exists, else move the folder.  Returns the
reported result and the new path set. -/
def organize_folder (rootDir albumFolder : String) (existing : List String) :
    Bool × List String :=
  match pySplitOnce " - " (pyBasename albumFolder) with
  | [p0, p1] =>
      let artistName := sanitize_filename (pyStrip p0)
      let albumName := sanitize_filename (pyStrip p1)
      if artistName = "" ∨ albumName = "" then (true, existing)
      else
        let artistPath := rootDir ++ "/" ++ artistName
        let existing1 := if artistPath ∈ existing then existing else existing ++ [artistPath]
        let finalPath := artistPath ++ "/" ++ albumName
        if albumFolder = finalPath then (true, existing1)
        else if finalPath ∈ existing1 then (false, existing1)
        else (true, (existing1.erase albumFolder) ++ [finalPath])
  | _ => (true, existing)

/-- Failing input for the walker de-duplication claim: an album folder `A`
with a track and an audio-bearing subfolder `B`. -/
def c2Tree : FSTree :=
  FSTree.mk "music" [] [FSTree.mk "A" ["x.mp3"] [FSTree.mk "B" ["y.mp3"] []]]

/-- Failing input for the system-folder exclusion claim: a `.rockbox`
directory holding an audio file. -/
def c3Tree : FSTree :=
  FSTree.mk "music" [] [FSTree.mk ".rockbox" ["a.mp3"] []]

/-- Input exhibiting the walker/processor audio-test mismatch: a folder whose
only file is named `albumflac` (no dot). -/
def c9Tree : FSTree :=
  FSTree.mk "music" [] [FSTree.mk "Album" ["albumflac"] []]

/-- Helper: a path string is never equal to itself extended by a separator and
a further segment (by a length computation). -/
theorem ne_slash_append (t s : String) : t ≠ t ++ "/" ++ s := by
  intro h
  have hl := congrArg String.length h
  rw [String.length_append, String.length_append] at hl
  have hone : ("/" : String).length = 1 := rfl
  rw [hone] at hl
  omega

/-- C1, counterexample: with both Provider A attempts failing (here Provider A
always fails and the album name `"B"` has no qualifier, so base and full
coincide), the automated chain of `process_album_folder` hands off to
`interactive_art_fix` immediately after Provider A — its trace contains no
Provider B step at all — refuting the claim that Provider B is invoked with
the base name before any interactive hand-off. -/
theorem c1_counterexample :
    (search_new_cover (fun _ _ => none) none "A" "B").1 =
        [ArtStep.provA "A" "B", ArtStep.interactive "A" "B"]
    ∧ ((search_new_cover (fun _ _ => none) none "A" "B").1.any ArtStep.isProvB) = false
    ∧ (search_new_cover (fun _ _ => none) none "A" "B").2 = none := by
  decide

/-- C1, amended: when Provider A fails for both the base and the full album
name, the automated chain performs no Provider B call and ends with the
interactive hand-off, whose outcome is the result; Provider B is invoked with
the base name only inside the interactive helper's search round, after
Provider A fails there on base and full, and its success is that round's
result with the remaining full-name Provider B step skipped. -/
theorem c1_amended (provA provB : String → String → Option String)
    (ir : Option String) (artist album p : String)
    (hA1 : provA artist (parse_base_album_name album) = none)
    (hA2 : provA artist album = none)
    (hB : provB artist (parse_base_album_name album) = some p) :
    (search_new_cover provA ir artist album).1 =
        [ArtStep.provA artist (parse_base_album_name album)]
          ++ (if parse_base_album_name album = album then []
              else [ArtStep.provA artist album])
          ++ [ArtStep.interactive artist album]
    ∧ (search_new_cover provA ir artist album).2 = ir
    ∧ ((search_new_cover provA ir artist album).1.any ArtStep.isProvB) = false
    ∧ (manual_search_round provA provB artist album).1 =
        [ArtStep.provA artist (parse_base_album_name album)]
          ++ (if parse_base_album_name album = album then []
              else [ArtStep.provA artist album])
          ++ [ArtStep.provB artist (parse_base_album_name album)]
    ∧ (manual_search_round provA provB artist album).2 = some p := by
  by_cases hb : parse_base_album_name album = album
  · rw [hb] at hA1 hB
    refine ⟨?_, ?_, ?_, ?_, ?_⟩ <;>
      simp [search_new_cover, manual_search_round, hA1, hA2, hB, hb, ArtStep.isProvB]
  · refine ⟨?_, ?_, ?_, ?_, ?_⟩ <;>
      simp [search_new_cover, manual_search_round, hA1, hA2, hB, hb, ArtStep.isProvB]

/-- C1, witness for the amended theorem at concrete oracles. -/
theorem c1_amended_witness :
    (search_new_cover (fun _ _ => none) none "A" "B").2 = none
    ∧ ((search_new_cover (fun _ _ => none) none "A" "B").1.any ArtStep.isProvB) = false
    ∧ (manual_search_round (fun _ _ => none) (fun _ _ => some "art.jpg") "A" "B").2 =
        some "art.jpg" := by
  have h := c1_amended (fun _ _ => none) (fun _ _ => some "art.jpg") none "A" "B" "art.jpg"
    rfl rfl rfl
  exact ⟨h.2.1, h.2.2.1, h.2.2.2.2⟩

/-- C2: evaluation at the failing input.  In the tree
`music/A/{x.mp3, B/{y.mp3}}` the walker collects both `music/A/B` and
`music/A`, and the first collected candidate is nested under the second —
the bottom-up walk emits descendants before ancestors, so the
`is_sub_album` comparison against already-collected folders never matches,
and the claimed de-duplication does not happen. -/
theorem c2_nested_candidates :
    collect_album_folders "music" c2Tree = ["music/A/B", "music/A"]
    ∧ pyStartsWith "music/A/B" ("music/A" ++ "/") = true := by
  decide

/-- C3: evaluation at the failing input.  A `.rockbox` directory holding
`a.mp3` is traversed and collected as a candidate album folder: with
`topdown=False`, removing `".rockbox"` from the yielded `dirs` list cannot
prune the traversal, which has already visited that subtree. -/
theorem c3_rockbox_collected :
    collect_album_folders "music" c3Tree = ["music/.rockbox"]
    ∧ walker_is_audio "a.mp3" = true := by
  decide

/-- C4: evaluation at the failing input.  For the title `"Intro (Live)"` the
skip check of `process_album_folder` looks for `sanitize_filename`-derived
sidecar names (which keep parentheses), while `download_lyrics` writes the
narrower `lyric_safe_title` name (which drops them): the first run persists
`"Intro Live.lrc"`, and a second run on the resulting folder still performs
a fetch — lyric handling is not idempotent for every titled track. -/
theorem c4_lyrics_refetch :
    sanitize_filename "Intro (Live)" = "Intro (Live)"
    ∧ lyric_safe_title "Intro (Live)" = "Intro Live"
    ∧ lyric_step (some "[00:10.00] line") none "Intro (Live)" [] = (true, ["Intro Live.lrc"])
    ∧ (lyric_step (some "[00:10.00] line") none "Intro (Live)" ["Intro Live.lrc"]).1 = true := by
  decide

/-- C5, counterexample: normalizing a `cover.jpg` in a folder with no
pre-existing `folder.jpg` passes through an intermediate state in which the
source has been removed while the canonical file does not yet exist —
refuting the claim that the source is deleted only after the normalized
output has been produced. -/
theorem c5_counterexample :
    run_fix_states "cover.jpg" ["cover.jpg"] (fix_cover_events "cover.jpg" ["cover.jpg"]) =
        [["cover.jpg"], [], ["folder.jpg"]]
    ∧ ((run_fix_states "cover.jpg" ["cover.jpg"]
          (fix_cover_events "cover.jpg" ["cover.jpg"])).any
        (fun st => !(st.contains "cover.jpg") && !(st.contains "folder.jpg"))) = true := by
  decide

/-- C5, amended: for a non-canonical source the deletion event precedes the
save event; when no canonical file pre-exists in the folder, the intermediate
state after the deletion contains neither the source nor the canonical file,
and the canonical file appears only in the final state. -/
theorem c5_amended (s : String) (files0 : List String)
    (h1 : pyLower s ≠ "folder.jpg") (h2 : s ∈ files0) (h3 : "folder.jpg" ∉ files0)
    (h4 : files0.count s = 1) :
    fix_cover_events s files0 = [FixEvent.removeSource, FixEvent.saveCanonical]
    ∧ s ∉ files0.erase s
    ∧ "folder.jpg" ∉ files0.erase s
    ∧ run_fix_states s files0 (fix_cover_events s files0) =
        [files0, files0.erase s, files0.erase s ++ ["folder.jpg"]] := by
  have hev : fix_cover_events s files0 = [FixEvent.removeSource, FixEvent.saveCanonical] := by
    unfold fix_cover_events
    rw [if_pos ⟨h1, h2⟩]
  have hse : s ∉ files0.erase s := by
    have hc : (files0.erase s).count s = 0 := by
      rw [List.count_erase_self, h4]
    exact List.count_eq_zero.mp hc
  have hfe : "folder.jpg" ∉ files0.erase s := fun hmem => h3 (List.mem_of_mem_erase hmem)
  refine ⟨hev, hse, hfe, ?_⟩
  rw [hev]
  simp only [run_fix_states, apply_fix_event]
  rw [if_neg hfe]

/-- C5, witness for the amended theorem at a concrete folder. -/
theorem c5_amended_witness :
    fix_cover_events "cover.jpg" ["cover.jpg"] =
        [FixEvent.removeSource, FixEvent.saveCanonical]
    ∧ run_fix_states "cover.jpg" ["cover.jpg"] (fix_cover_events "cover.jpg" ["cover.jpg"]) =
        [["cover.jpg"], [], ["folder.jpg"]] := by
  have h := c5_amended "cover.jpg" ["cover.jpg"] (by decide) (by decide) (by decide) (by decide)
  refine ⟨h.1, ?_⟩
  rw [h.2.2.2]
  decide

/-- C6: when the folder name splits into exactly two parts on the first
`" - "` separator, identity resolution returns exactly the trimmed split
pieces as `(artist, album)` — for every possible tag content — and the tags
at most backfill an absent (falsy) tag artist with the folder-derived artist,
never altering the search identity. -/
theorem c6_folder_name_authoritative (name a b : String) (tA tAl : Option String)
    (hsplit : pySplitOnce " - " name = [a, b]) :
    resolve_album_identity name tA tAl =
      some (Resolved.mk (pyStrip a) (pyStrip b)
        (if pyTruthy tA then tA else some (pyStrip a))) := by
  unfold resolve_album_identity
  rw [hsplit]

/-- C6, witness: tags disagreeing with the folder name do not change the
resolved identity. -/
theorem c6_witness :
    resolve_album_identity "Artist - Album" (some "Different") (some "Z") =
      some (Resolved.mk "Artist" "Album" (some "Different")) := by
  have h := c6_folder_name_authoritative "Artist - Album" "Artist" "Album"
    (some "Different") (some "Z") (by decide)
  rw [h]
  decide

/-- C7: two distinct source folders whose basenames sanitize to the same
destination, processed sequentially — the first reports success and the
destination path now exists (the source path is gone); the second reports
failure, changes nothing in the path set, and its source folder is still
present. -/
theorem c7_destination_collision
    (rootDir s1 s2 a1 b1 a2 b2 A B : String) (E0 : List String)
    (h1 : pySplitOnce " - " (pyBasename s1) = [a1, b1])
    (h2 : pySplitOnce " - " (pyBasename s2) = [a2, b2])
    (hA1 : sanitize_filename (pyStrip a1) = A)
    (hB1 : sanitize_filename (pyStrip b1) = B)
    (hA2 : sanitize_filename (pyStrip a2) = A)
    (hB2 : sanitize_filename (pyStrip b2) = B)
    (hA : A ≠ "") (hB : B ≠ "")
    (hs1d : s1 ≠ rootDir ++ "/" ++ A ++ "/" ++ B)
    (hs2d : s2 ≠ rootDir ++ "/" ++ A ++ "/" ++ B)
    (hs1a : s1 ≠ rootDir ++ "/" ++ A)
    (h12 : s1 ≠ s2)
    (hd0 : (rootDir ++ "/" ++ A ++ "/" ++ B) ∉ E0)
    (hcount : E0.count s1 = 1)
    (hs2in : s2 ∈ E0) :
    (organize_folder rootDir s1 E0).1 = true
    ∧ (rootDir ++ "/" ++ A ++ "/" ++ B) ∈ (organize_folder rootDir s1 E0).2
    ∧ s1 ∉ (organize_folder rootDir s1 E0).2
    ∧ (organize_folder rootDir s2 (organize_folder rootDir s1 E0).2).1 = false
    ∧ (organize_folder rootDir s2 (organize_folder rootDir s1 E0).2).2 =
        (organize_folder rootDir s1 E0).2
    ∧ s2 ∈ (organize_folder rootDir s1 E0).2 := by
  have hdap : (rootDir ++ "/" ++ A) ≠ rootDir ++ "/" ++ A ++ "/" ++ B := ne_slash_append _ _
  have hne : ¬(A = "" ∨ B = "") := by simp [hA, hB]
  set E1 := if (rootDir ++ "/" ++ A) ∈ E0 then E0 else E0 ++ [rootDir ++ "/" ++ A] with hE1
  have hapE1 : (rootDir ++ "/" ++ A) ∈ E1 := by
    rw [hE1]; split
    · assumption
    · exact List.mem_append_right _ (List.mem_singleton_self _)
  have hdE1 : (rootDir ++ "/" ++ A ++ "/" ++ B) ∉ E1 := by
    rw [hE1]; split
    · exact hd0
    · intro hm
      rcases List.mem_append.mp hm with hm | hm
      · exact hd0 hm
      · exact hdap (List.mem_singleton.mp hm).symm
  have hcE1 : E1.count s1 = 1 := by
    rw [hE1]; split
    · exact hcount
    · rw [List.count_append, hcount]
      simp [hs1a]
  have hs2E1 : s2 ∈ E1 := by
    rw [hE1]; split
    · exact hs2in
    · exact List.mem_append_left _ hs2in
  have hs1ne : s1 ∉ E1.erase s1 := by
    have hc : (E1.erase s1).count s1 = 0 := by rw [List.count_erase_self, hcE1]
    exact List.count_eq_zero.mp hc
  have horg1 : organize_folder rootDir s1 E0 =
      (true, E1.erase s1 ++ [rootDir ++ "/" ++ A ++ "/" ++ B]) := by
    simp only [organize_folder, h1, hA1, hB1]
    rw [if_neg hne, ← hE1, if_neg hs1d, if_neg hdE1]
  have hs1notmem : s1 ∉ E1.erase s1 ++ [rootDir ++ "/" ++ A ++ "/" ++ B] := by
    intro hm
    rcases List.mem_append.mp hm with hm | hm
    · exact hs1ne hm
    · exact hs1d (List.mem_singleton.mp hm)
  have hapS1 : (rootDir ++ "/" ++ A) ∈ E1.erase s1 ++ [rootDir ++ "/" ++ A ++ "/" ++ B] :=
    List.mem_append_left _ ((List.mem_erase_of_ne hs1a.symm).mpr hapE1)
  have hdS1 : (rootDir ++ "/" ++ A ++ "/" ++ B) ∈
      E1.erase s1 ++ [rootDir ++ "/" ++ A ++ "/" ++ B] :=
    List.mem_append_right _ (List.mem_singleton_self _)
  have hs2S1 : s2 ∈ E1.erase s1 ++ [rootDir ++ "/" ++ A ++ "/" ++ B] :=
    List.mem_append_left _ ((List.mem_erase_of_ne h12.symm).mpr hs2E1)
  have horg2 : organize_folder rootDir s2 (E1.erase s1 ++ [rootDir ++ "/" ++ A ++ "/" ++ B]) =
      (false, E1.erase s1 ++ [rootDir ++ "/" ++ A ++ "/" ++ B]) := by
    simp only [organize_folder, h2, hA2, hB2]
    rw [if_neg hne, if_pos hapS1, if_neg hs2d, if_pos hdS1]
  rw [horg1]
  exact ⟨rfl, hdS1, hs1notmem, by rw [horg2], by rw [horg2], hs2S1⟩

/-- C7, witness: `"music/Artist - Album!"` and `"music/Artist - Album?"` both
sanitize to destination `"music/Artist/Album"`. -/
theorem c7_witness :
    (organize_folder "music" "music/Artist - Album!"
        ["music/Artist - Album!", "music/Artist - Album?"]).1 = true
    ∧ (organize_folder "music" "music/Artist - Album?"
        (organize_folder "music" "music/Artist - Album!"
          ["music/Artist - Album!", "music/Artist - Album?"]).2).1 = false
    ∧ "music/Artist - Album?" ∈ (organize_folder "music" "music/Artist - Album!"
          ["music/Artist - Album!", "music/Artist - Album?"]).2 := by
  have h := c7_destination_collision "music" "music/Artist - Album!" "music/Artist - Album?"
    "Artist" "Album!" "Artist" "Album?" "Artist" "Album"
    ["music/Artist - Album!", "music/Artist - Album?"]
    (by decide) (by decide) (by decide) (by decide) (by decide) (by decide)
    (by decide) (by decide) (by decide) (by decide) (by decide) (by decide)
    (by decide) (by decide) (by decide)
  exact ⟨h.1, h.2.2.2.1, h.2.2.2.2.2⟩

/-- C8: a track titled `"Intro"` with track number `"2/12"` renames to
`"02 - Intro.mp3"`; a track without a title keeps its current name (the
rename loop skips it); a titled track with no track-number tag gets the
`"00"` prefix. -/
theorem c8_track_rename :
    rename_track "intro.mp3" (some (TagVal.list ["Intro"])) (some (TagVal.list ["2/12"]))
        = some "02 - Intro.mp3"
    ∧ (∀ f trackRaw, rename_track f none trackRaw = none)
    ∧ (∀ f title t, title_of_tag title = some t →
        rename_track f title none =
          some ("00 - " ++ sanitize_filename t ++ pySplitextExt f)) := by
  refine ⟨by decide, fun f trackRaw => rfl, fun f title t h => ?_⟩
  simp [rename_track, h, track_num_str]

/-- C8, witness: the `"00"` default at a concrete titled track with no
track-number tag. -/
theorem c8_witness :
    rename_track "Song.flac" (some (TagVal.str "Intro")) none = some "00 - Intro.flac" := by
  have h := c8_track_rename.2.2 "Song.flac" (some (TagVal.str "Intro")) "Intro" (by decide)
  rw [h]
  decide

/-- C9: the walker's audio test accepts the bare suffix `"flac"` while the
processor requires `".flac"` or `".mp3"`, so a folder whose only file is
named `"albumflac"` is collected as a candidate by the walker, yet
`process_album_folder` finds no audio files there and returns failure at its
first statement, before performing any modification. -/
theorem c9_walker_processor_mismatch :
    walker_is_audio "albumflac" = true
    ∧ processor_is_audio "albumflac" = false
    ∧ collect_album_folders "music" c9Tree = ["music/Album"]
    ∧ process_album_guard ["albumflac"] = none := by
  decide

/-- C10: with a two-part folder name and a truthy tag artist, the search
identity keeps the folder-derived artist while the lyrics request uses the
tag artist; with no tag artist, the lyrics request falls back to the
folder-derived artist.  Hence when the two artists differ, cover search and
lyrics fetch are issued with different artist strings. -/
theorem c10_lyrics_artist_choice (name a b tA : String) (tAl tAl2 : Option String)
    (hsplit : pySplitOnce " - " name = [a, b]) (htruthy : tA ≠ "") :
    (resolve_album_identity name (some tA) tAl =
        some (Resolved.mk (pyStrip a) (pyStrip b) (some tA))
      ∧ lyrics_artist (Resolved.mk (pyStrip a) (pyStrip b) (some tA)) = tA)
    ∧ (resolve_album_identity name none tAl2 =
        some (Resolved.mk (pyStrip a) (pyStrip b) (some (pyStrip a)))
      ∧ lyrics_artist (Resolved.mk (pyStrip a) (pyStrip b) (some (pyStrip a))) = pyStrip a) := by
  refine ⟨⟨?_, ?_⟩, ⟨?_, ?_⟩⟩
  · unfold resolve_album_identity
    rw [hsplit]
    simp [pyTruthy, htruthy]
  · simp [lyrics_artist, htruthy]
  · unfold resolve_album_identity
    rw [hsplit]
    simp [pyTruthy]
  · simp [lyrics_artist]

/-- C10, witness: a folder-name artist differing from the tag artist yields
different strings for cover search and lyrics fetch. -/
theorem c10_witness :
    lyrics_artist (Resolved.mk "Folder Artist" "Album" (some "Tag Artist")) = "Tag Artist"
    ∧ resolve_album_identity "Folder Artist - Album" (some "Tag Artist") (some "X") =
        some (Resolved.mk "Folder Artist" "Album" (some "Tag Artist")) := by
  have h := c10_lyrics_artist_choice "Folder Artist - Album" "Folder Artist" "Album"
    "Tag Artist" (some "X") none (by decide) (by decide)
  exact ⟨h.1.2, h.1.1⟩
